import Mathlib

/-!
Shallow embedding of the conversation / booking core of the LaoChatBotHotel
repository, together with proofs about it.

Text is modelled as Lean String (a sequence of Unicode scalar values), which
agrees with Python str for the ASCII and Lao inputs this system processes.
Python regular-expression digits and whitespace are modelled as ASCII digits
and ASCII whitespace; all literals occurring in the repository fall in this
fragment.
-/

set_option maxRecDepth 10000

namespace HotelBot

/-! ## String utilities (Python substring test, lower-casing, splitting) -/

/-- needle is a prefix of hay (character lists). -/
def startsWithL : List Char → List Char → Bool
  | [], _ => true
  | _ :: _, [] => false
  | a :: as, b :: bs => a == b && startsWithL as bs

/-- Python needle in hay on character lists. -/
def containsL : List Char → List Char → Bool
  | [], needle => needle.isEmpty
  | h :: t, needle => startsWithL needle (h :: t) || containsL t needle

/-- Python needle in hay on strings. -/
def containsStr (hay needle : String) : Bool :=
  containsL hay.toList needle.toList

/-- ASCII lower-casing of one character (Lao has no case, so this agrees
with Python str.lower on the inputs this system processes). -/
def lowerCh (c : Char) : Char :=
  if 65 ≤ c.toNat ∧ c.toNat ≤ 90 then Char.ofNat (c.toNat + 32) else c

/-- Python str.lower. -/
def lowerStr (t : String) : String :=
  String.mk (t.toList.map lowerCh)

/-- Python str.split() with no argument: split on whitespace runs,
dropping empty pieces. -/
def splitWsAux : List Char → List Char → List String
  | [], acc => if acc.isEmpty then [] else [String.mk acc.reverse]
  | c :: t, acc =>
    if c.isWhitespace then
      if acc.isEmpty then splitWsAux t []
      else String.mk acc.reverse :: splitWsAux t []
    else splitWsAux t (c :: acc)

def splitWs (t : String) : List String :=
  splitWsAux t.toList []

/-! ## Calendar dates (Python datetime.date fragment) -/

structure Date where
  year : Nat
  month : Nat
  day : Nat
deriving DecidableEq, Repr

def isLeapYear (y : Nat) : Bool :=
  (y % 4 == 0 && y % 100 != 0) || (y % 400 == 0)

def daysInMonth (y m : Nat) : Nat :=
  if m = 2 then (if isLeapYear y then 29 else 28)
  else if m = 4 ∨ m = 6 ∨ m = 9 ∨ m = 11 then 30
  else 31

/-- Python date strict comparison (lexicographic on year, month, day). -/
def Date.ltB (a b : Date) : Bool :=
  decide (a.year < b.year ∨ (a.year = b.year ∧
    (a.month < b.month ∨ (a.month = b.month ∧ a.day < b.day))))

/-- Python date non-strict comparison. -/
def Date.leB (a b : Date) : Bool :=
  decide (a.year < b.year ∨ (a.year = b.year ∧
    (a.month < b.month ∨ (a.month = b.month ∧ a.day ≤ b.day))))

/-- Python min(a, b): returns a unless b is strictly smaller. -/
def Date.minP (a b : Date) : Date :=
  if Date.ltB b a then b else a

/-- Python max(a, b): returns a unless b is strictly larger. -/
def Date.maxP (a b : Date) : Date :=
  if Date.ltB a b then b else a

/-- The following calendar day. -/
def Date.nextDay (d : Date) : Date :=
  if d.day < daysInMonth d.year d.month then ⟨d.year, d.month, d.day + 1⟩
  else if d.month < 12 then ⟨d.year, d.month + 1, 1⟩
  else ⟨d.year + 1, 1, 1⟩

/-- Python date + timedelta(days = n). -/
def Date.addDays (d : Date) (n : Nat) : Date :=
  Date.nextDay^[n] d

/-! ## The explicit-date regular expression

Embedding of re.findall over the fixed pattern: one or two digits, a slash
or dash, one or two digits, a slash or dash, exactly four digits, the three
digit runs captured as groups. It follows the scanning and backtracking order of the Python re module:
positions are tried left to right, at each position the day width 2 is
tried before width 1, likewise for the month, and matches do not overlap
(scanning resumes after the end of a match). -/

abbrev DateGroups := List Char × List Char × List Char

/-- Exactly k digit characters from the front. -/
def takeDigits : Nat → List Char → Option (List Char × List Char)
  | 0, l => some ([], l)
  | _ + 1, [] => none
  | n + 1, c :: t =>
    if c.isDigit then
      match takeDigits n t with
      | some (ds, rest) => some (c :: ds, rest)
      | none => none
    else none

def sepChar (c : Char) : Bool := c == '/' || c == '-'

def matchSep : List Char → Option (List Char)
  | [] => none
  | c :: t => if sepChar c then some t else none

/-- One candidate widths combination: dl day digits, separator, ml month
digits, separator, four year digits. -/
def tryCombo (dl ml : Nat) (l : List Char) : Option (DateGroups × List Char) :=
  (takeDigits dl l).bind fun p1 =>
  (matchSep p1.2).bind fun r2 =>
  (takeDigits ml r2).bind fun p2 =>
  (matchSep p2.2).bind fun r4 =>
  (takeDigits 4 r4).map fun p3 => ((p1.1, p2.1, p3.1), p3.2)

/-- Match attempt at one position, in the re backtracking order. -/
def matchDateAt (l : List Char) : Option (DateGroups × List Char) :=
  (tryCombo 2 2 l).orElse fun _ =>
  (tryCombo 2 1 l).orElse fun _ =>
  (tryCombo 1 2 l).orElse fun _ =>
  tryCombo 1 1 l

/-- Scanning loop of re.findall. The fuel argument only serves termination:
every step consumes at least one character, and the initial fuel is the text
length, so the fuel never runs out. -/
def findDatesF : Nat → List Char → List DateGroups
  | 0, _ => []
  | _ + 1, [] => []
  | fuel + 1, c :: t =>
    match matchDateAt (c :: t) with
    | some (g, rest) => g :: findDatesF fuel rest
    | none => findDatesF fuel t

/-- re.findall of the explicit date pattern over the text. -/
def findDates (l : List Char) : List DateGroups :=
  findDatesF l.length l

/-- Numeric value of a digit string (Python int on the captured group). -/
def digitsVal (l : List Char) : Nat :=
  l.foldl (fun a c => a * 10 + (c.toNat - 48)) 0

/-- Success condition of datetime.strptime with format day-month-year:
the components must form a real calendar date with year at least 1. -/
def validDMY (d m y : Nat) : Bool :=
  decide (1 ≤ y ∧ 1 ≤ m ∧ m ≤ 12 ∧ 1 ≤ d ∧ d ≤ daysInMonth y m)

/-- strptime of one captured (day, month, year) group triple. -/
def strptimeDMY (g : DateGroups) : Option Date :=
  let d := digitsVal g.1
  let m := digitsVal g.2.1
  let y := digitsVal g.2.2
  if validDMY d m y then some ⟨y, m, d⟩ else none

/-- First branch of parse_dates: at least two pattern matches whose first
two both parse; on a strptime failure the branch falls through (None here). -/
def explicitPair (text : List Char) : Option (Date × Date) :=
  match findDates text with
  | g1 :: g2 :: _ =>
    match strptimeDMY g1, strptimeDMY g2 with
    | some d1, some d2 => some (Date.minP d1 d2, Date.maxP d1 d2)
    | _, _ => none
  | _ => none

/-! ## The duration regular expression: digits, optional whitespace, a
day/night unit literal. Units begin with neither a digit nor whitespace, so
the greedy quantifiers need no backtracking: maximal runs are faithful. -/

def unitAt (l : List Char) : Bool :=
  startsWithL "day".toList l || startsWithL "night".toList l ||
  startsWithL "ຄືນ".toList l || startsWithL "ມື້".toList l

/-- Duration match attempt at one position. -/
def durAt (l : List Char) : Option Nat :=
  let ds := l.takeWhile Char.isDigit
  if ds.isEmpty then none
  else
    let rest := (l.drop ds.length).dropWhile Char.isWhitespace
    if unitAt rest then some (digitsVal ds) else none

/-- re.search of the duration pattern: first matching position wins. -/
def findDuration : List Char → Option Nat
  | [] => none
  | c :: t =>
    match durAt (c :: t) with
    | some n => some n
    | none => findDuration t

def hasTomorrowMarker (text : List Char) : Bool :=
  containsL text "tomorrow".toList || containsL text "ມື້ອື່ນ".toList

/-- parse_dates from services/conversation.py (identical in app.py).
The impure datetime.now() of the source is passed in as today. -/
def parse_dates (today : Date) (textS : String) : Option (Date × Date) :=
  let text := textS.toList
  match explicitPair text with
  | some p => some p
  | none =>
    if hasTomorrowMarker text then
      match findDuration text with
      | some n =>
        let startD := Date.addDays today 1
        some (startD, Date.addDays startD n)
      | none => none
    else none

/-! ## Rooms table (database/operations.py)

The rooms table is a list of rows; the roomNumber column carries a UNIQUE
constraint, stated as a Nodup hypothesis where a theorem needs it. -/

structure Room where
  roomNumber : String
  status : String
  reserveStartDate : Option String
  reserveEndDate : Option String
  note : Option String
deriving DecidableEq, Repr

def ROOM_NUMBERS : List String :=
  ["101", "102", "103", "104", "201", "202", "203", "204", "205", "206", "207",
   "301", "302", "303", "304", "305", "306", "307", "401", "402", "403", "404",
   "405", "406", "407"]

/-- Lexicographic order on character lists (SQLite text ORDER BY). -/
def lexLt : List Char → List Char → Bool
  | [], [] => false
  | [], _ :: _ => true
  | _ :: _, [] => false
  | a :: as, b :: bs => a < b || (a == b && lexLt as bs)

def strLtB (a b : String) : Bool := lexLt a.toList b.toList

def insertSorted (x : String) : List String → List String
  | [] => [x]
  | y :: t => if strLtB y x then y :: insertSorted x t else x :: y :: t

def sortStrs (l : List String) : List String := l.foldr insertSorted []

/-- SELECT roomNumber FROM rooms WHERE status is Available ORDER BY roomNumber. -/
def get_available_rooms_from_db (db : List Room) : List String :=
  sortStrs ((db.filter (fun r => r.status == "Available")).map Room.roomNumber)

/-- SELECT * FROM rooms WHERE roomNumber matches. -/
def get_room_details_from_db (db : List Room) (room_number : String) : Option Room :=
  db.find? (fun r => r.roomNumber == room_number)

/-- WHERE clause of the conditional booking update. -/
def bookingHit (room_number : String) (r : Room) : Bool :=
  r.roomNumber == room_number && r.status == "Available"

/-- book_room_in_db: UPDATE rooms SET Booked plus dates plus note WHERE
roomNumber matches AND status is Available; the Bool is rowcount positive. -/
def book_room_in_db (db : List Room) (room_number startS endS noteS : String) :
    Bool × List Room :=
  let updated := db.map fun r =>
    if bookingHit room_number r then
      { r with status := "Booked", reserveStartDate := some startS,
               reserveEndDate := some endS, note := some noteS }
    else r
  (decide (0 < (db.filter (bookingHit room_number)).length), updated)

/-! ## Session store (ConversationManager) -/

/-- Python dict lookup, on an association list where insertion conses. -/
def lookupA {α : Type} : List (String × α) → String → Option α
  | [], _ => none
  | (k, v) :: t, k' => if k' = k then some v else lookupA t k'

/-- Python del d entry: remove every binding of the key. -/
def eraseA {α : Type} (k : String) (l : List (String × α)) : List (String × α) :=
  l.filter (fun p => p.1 ≠ k)

/-- The pending-booking draft dict: room, then optionally the dates. -/
structure Booking where
  room : String
  start_date : Option String
  end_date : Option String
deriving DecidableEq, Repr

structure ConvoState where
  states : List (String × String)
  pending : List (String × Booking)
deriving DecidableEq, Repr

def ConvoState.empty : ConvoState := ⟨[], []⟩

def get_state (cs : ConvoState) (session_id : String) : String :=
  (lookupA cs.states session_id).getD "NORMAL"

def set_state (cs : ConvoState) (session_id state : String)
    (booking_info : Option Booking) : ConvoState :=
  { states := (session_id, state) :: cs.states,
    pending := match booking_info with
      | some b => (session_id, b) :: cs.pending
      | none => cs.pending }

def get_pending_booking (cs : ConvoState) (session_id : String) : Option Booking :=
  lookupA cs.pending session_id

def clear_session (cs : ConvoState) (session_id : String) : Bool × ConvoState :=
  ((lookupA cs.states session_id).isSome || (lookupA cs.pending session_id).isSome,
   ⟨eraseA session_id cs.states, eraseA session_id cs.pending⟩)

/-! ## Keyword sets (config/settings.py) and intent detectors -/

def BOOKING_INTENT_KEYWORDS : List String :=
  ["ຈອງ", "book", "reserve", "booking", "reservation", "ຫ້ອງວ່າງ"]

def CONFIRMATION_KEYWORDS : List String :=
  ["yes", "ok", "y", "ແມ່ນ", "ຕົກລົງ", "confirm", "ແມ່ນແລ້ວ"]

def PRICE_INQUIRY_KEYWORDS : List String :=
  ["ລາຄາ", "price", "cost", "ເທົ່າໃດ", "how much", "ຄ່າຫ້ອງ", "ຄ່າໃຊ້ຈ່າຍ"]

/-- detect_booking_intent: keyword containment on the lower-cased text,
falling back to the embedding-similarity outcome, which is external and
passed in as embSimilar (False covers the swallowed-exception paths). -/
def detect_booking_intent (embSimilar : Bool) (tokenized_query : String) : Bool :=
  if BOOKING_INTENT_KEYWORDS.any (fun kw => containsStr (lowerStr tokenized_query) kw)
  then true else embSimilar

def detect_price_inquiry (user_input : String) : Bool :=
  PRICE_INQUIRY_KEYWORDS.any (fun kw => containsStr (lowerStr user_input) kw)

/-- The confirmation test of handle_booking_confirmation. -/
def confirmationHit (user_input : String) : Bool :=
  CONFIRMATION_KEYWORDS.any (fun kw => containsStr (lowerStr user_input) kw)

/-- Python strftime zero-padded numeric field. -/
def padNum (width n : Nat) : String :=
  let s := toString n
  if s.length < width then String.mk (List.replicate (width - s.length) '0') ++ s
  else s

/-- strftime year-month-day. -/
def fmtYMD (d : Date) : String :=
  padNum 4 d.year ++ "-" ++ padNum 2 d.month ++ "-" ++ padNum 2 d.day

/-! ## The mutable world a handler sees: session store plus rooms table. -/

structure World where
  convo : ConvoState
  rooms : List Room
deriving DecidableEq, Repr

/-! ## Handlers of services/conversation.py (the backend package flavor,
with the price-inquiry interception) and the dispatcher of
services/chatbot.py. -/

namespace Backend

def handle_booking_request (w : World) (session_id : String) :
    (String × String) × World :=
  let available_rooms := get_available_rooms_from_db w.rooms
  if available_rooms = [] then
    (("ຂໍອະໄພ, ຕອນນີ້ບໍ່ມີຫ້ອງວ່າງເລີຍ.", "STATUS_CHECK"), w)
  else
    let reply := "ແນ່ນອນ, ຕອນນີ້ພວກເຮົາມີຫ້ອງວ່າງດັ່ງນີ້: " ++
      String.intercalate ", " available_rooms ++
      ". ກະລຸນາເລືອກໝາຍເລກຫ້ອງທີ່ທ່ານຕ້ອງການ."
    ((reply, "BOOKING_SUGGESTION"),
     { w with convo := set_state w.convo session_id "AWAITING_ROOM_CHOICE" none })

def roomNotAvailableReply (w : World) (selected_room : String) : String :=
  "ຫ້ອງ " ++ selected_room ++ " ບໍ່ວ່າງ. ກະລຸນາເລືອກຫ້ອງອື່ນຈາກລາຍການ: " ++
    String.intercalate ", " (get_available_rooms_from_db w.rooms)

def handle_room_selection (w : World) (user_input session_id : String) :
    (String × String) × World :=
  if detect_price_inquiry user_input then
    (("ກະລຸນາເລືອກໝາຍເລກຫ້ອງກ່ອນ. ຂໍ້ມູນລາຄາໄດ້ແຈ້ງໄວ້ແລ້ວຕອນເລີ່ມຕົ້ນ.",
      "FOCUS_ON_BOOKING"), w)
  else
    match (splitWs user_input).find? (fun word => ROOM_NUMBERS.contains word) with
    | none =>
      (("ຂໍອະໄພ, ຂ້ອຍບໍ່ເຫັນໝາຍເລກຫ້ອງທີ່ຖືກຕ້ອງ. ກະລຸນາລອງໃໝ່.", "INVALID_ROOM"), w)
    | some selected_room =>
      match get_room_details_from_db w.rooms selected_room with
      | some details =>
        if details.status = "Available" then
          (("ເຂົ້າໃຈແລ້ວ, ທ່ານເລືອກຫ້ອງ " ++ selected_room ++
            ". ກະລຸນາລະບຸວັນທີເລີ່ມຈອງ ແລະ ວັນທີສິ້ນສຸດ (ຕົວຢ່າງ: 11/06/2025 - 13/06/2025 ຫຼື \x27ມື້ອື່ນ 2 ຄືນ\x27).",
            "DATE_REQUEST"),
           { w with convo :=
              set_state w.convo session_id "AWAITING_DATES" (some ⟨selected_room, none, none⟩) })
        else ((roomNotAvailableReply w selected_room, "STATUS_CHECK"), w)
      | none => ((roomNotAvailableReply w selected_room, "STATUS_CHECK"), w)

def handle_date_selection (today : Date) (w : World) (user_input session_id : String) :
    (String × String) × World :=
  if detect_price_inquiry user_input then
    (("ກະລຸນາລະບຸວັນທີເລີ່ມຈອງ ແລະ ວັນທີສິ້ນສຸດກ່ອນ. ຂໍ້ມູນລາຄາໄດ້ແຈ້ງໄວ້ແລ້ວຕອນເລີ່ມຕົ້ນ.",
      "FOCUS_ON_BOOKING"), w)
  else
    match parse_dates today user_input, get_pending_booking w.convo session_id with
    | some dates, some pb =>
      let pb2 := { pb with start_date := some (fmtYMD dates.1),
                           end_date := some (fmtYMD dates.2) }
      let reply := "ທ່ານຕ້ອງການຈອງຫ້ອງ " ++ pb2.room ++ " ແຕ່ວັນທີ " ++ fmtYMD dates.1 ++
        " ຫາ " ++ fmtYMD dates.2 ++ ", ແມ່ນບໍ່? (ແມ່ນ/ບໍ່)"
      ((reply, "CONFIRMATION_REQUEST"),
       { w with convo :=
          set_state w.convo session_id "AWAITING_BOOKING_CONFIRMATION" (some pb2) })
    | _, _ =>
      (("ຂໍອະໄພ, ຂ້ອຍບໍ່ເຂົ້າໃຈຮູບແບບວັນທີ. ກະລຸນາໃຊ້ຮູບແບບ DD/MM/YYYY ຫຼື \x27ມື້ອື່ນ x ຄືນ\x27.",
        "INVALID_DATE"), w)

def handle_booking_confirmation (w : World) (user_input session_id : String) :
    (String × String) × World :=
  match get_pending_booking w.convo session_id with
  | none =>
    (("ເກີດຂໍ້ຜິດພາດ, ກະລຸນາເລີ່ມການຈອງໃໝ່.", "ERROR"),
     { w with convo := set_state w.convo session_id "NORMAL" none })
  | some pb =>
    if detect_price_inquiry user_input then
      (("ກະລຸນາຕອບ ແມ່ນ ຫຼື ບໍ່ ສຳລັບການຢືນຢັນການຈອງກ່ອນ. ຂໍ້ມູນລາຄາໄດ້ແຈ້ງໄວ້ແລ້ວຕອນເລີ່ມຕົ້ນ.",
        "FOCUS_ON_BOOKING"), w)
    else if confirmationHit user_input then
      let booked := book_room_in_db w.rooms pb.room (pb.start_date.getD "")
        (pb.end_date.getD "") ("Booked via Chatbot session " ++ session_id)
      let w2 : World := ⟨(clear_session w.convo session_id).2, booked.2⟩
      if booked.1 then
        (("ສຳເລັດ! ຫ້ອງ " ++ pb.room ++ " ໄດ້ຖືກຈອງໃຫ່ທ່ານແລ້ວ. ຂອບໃຈທີ່ໃຊ້ບໍລິການ.",
          "BOOKING_CONFIRMED"), w2)
      else
        (("ຂໍອະໄພ, ເກີດຂໍ້ຜິດພາດໃນຂະນະທີ່ພະຍາຍາມຈອງ. ຫ້ອງນັ້ນອາດຈະຖືກຈອງໄປແລ້ວ. ກະລຸນາລອງໃໝ່.",
          "ERROR"), w2)
    else
      (("ການຈອງໄດ້ຖືກຍົກເລີກ. ຖ້າທ່ານຕ້ອງການເລີ່ມໃໝ່, ພຽງແຕ່ບອກຂ້ອຍ.",
        "BOOKING_CANCELLED"),
       { w with convo := (clear_session w.convo session_id).2 })

/-- External collaborators of one orchestrated turn: the clock, the Lao
word tokenizer, the embedding-similarity verdict and the RAG-LLM reply,
all black boxes to this spec. -/
structure Env where
  today : Date
  tokenize : String → String
  embSimilar : Bool
  ragReply : String

/-- The state dispatch of services/chatbot.py generate_orchestrated_answer
(everything between the two chat-history writes). -/
def orch_step (env : Env) (w : World) (session_id user_input : String) :
    (String × String) × World :=
  let st := get_state w.convo session_id
  if st = "AWAITING_ROOM_CHOICE" then handle_room_selection w user_input session_id
  else if st = "AWAITING_DATES" then handle_date_selection env.today w user_input session_id
  else if st = "AWAITING_BOOKING_CONFIRMATION" then
    handle_booking_confirmation w user_input session_id
  else if detect_booking_intent env.embSimilar (env.tokenize user_input) then
    handle_booking_request w session_id
  else ((env.ragReply, "LLM_WITH_RAG"), w)

/-- Worlds reachable from a fresh session store by any sequence of
orchestrated messages and clear-session calls, with arbitrary external
collaborators on every turn. -/
inductive Reachable : World → Prop where
  | init (rooms : List Room) : Reachable ⟨ConvoState.empty, rooms⟩
  | step (env : Env) (session_id user_input : String) {w : World} :
      Reachable w → Reachable (orch_step env w session_id user_input).2
  | clear (session_id : String) {w : World} :
      Reachable w → Reachable { w with convo := (clear_session w.convo session_id).2 }

structure ChatRow where
  session_id : String
  role : String
  content : String
deriving DecidableEq, Repr

structure ChatWorld where
  world : World
  hist : List ChatRow
deriving DecidableEq, Repr

def chatbotErrorReply : String := "ຂໍອະໄພ, ເກີດຂໍ້ຜິດພາດ. ກະລຸນາລອງຖາມຄຳຖາມໃໝ່."

/-- generate_orchestrated_answer of services/chatbot.py. save_chat_to_db
has no error handling of its own, so a failing insert raises; saveOk gives
the outcome of the successive insert attempts (0: the inbound user row,
1: the next write attempted, 2: the fallback write of the except branch).
A raise escaping the except branch is the error value. -/
def generate_orchestrated_answer (env : Env) (saveOk : Nat → Bool)
    (cw : ChatWorld) (user_input session_id : String) :
    Except Unit ((String × String) × ChatWorld) :=
  if saveOk 0 then
    let h1 := cw.hist ++ [⟨session_id, "user", user_input⟩]
    let r := orch_step env cw.world session_id user_input
    if saveOk 1 then
      Except.ok (r.1, ⟨r.2, h1 ++ [⟨session_id, "assistant", r.1.1⟩]⟩)
    else if saveOk 2 then
      Except.ok ((chatbotErrorReply, "ERROR"),
        ⟨r.2, h1 ++ [⟨session_id, "assistant", chatbotErrorReply⟩]⟩)
    else Except.error ()
  else
    if saveOk 1 then
      Except.ok ((chatbotErrorReply, "ERROR"),
        ⟨cw.world, cw.hist ++ [⟨session_id, "assistant", chatbotErrorReply⟩]⟩)
    else Except.error ()

end Backend

/-! ## RAG retrieval decision (get_rag_context of services/ml_models.py,
duplicated verbatim in app.py)

The embedding model and the nearest-neighbour search are external
capabilities; their outcome for the query is passed in as retrieval, an
exception or the scored top-K hit list. Scores are modelled as rationals;
the similarity values only ever meet the fixed threshold comparison. -/

structure Hit where
  corpus_id : Nat
  score : ℚ
deriving DecidableEq, Repr

/-- Sentinel when no knowledge base is loaded. -/
def NO_KB_SENTINEL : String :=
  "ບໍ່ມີຂໍ້ມູນສະເພາະໃນຄັງຄວາມຮູ້ກ່ຽວກັບວັງວຽງ ແລະ ບໍລິການໂຮງແຮມ."

/-- Sentinel when the best hit does not clear the confidence threshold. -/
def NO_DATA_SENTINEL : String :=
  "ບໍ່ມີຂໍ້ມູນສະເພາະກ່ຽວກັບເລື່ອງນີ້ໃນວັງວຽງ, ແຕ່ຂ້ອຍສາມາດໃຫ້ຄຳແນະນຳທົ່ວໄປໄດ້."

/-- Sentinel when retrieval raised an exception. -/
def RETRIEVAL_ERROR_SENTINEL : String :=
  "ເກີດຂໍ້ຜິດພາດໃນການຄົ້ນຫາຂໍ້ມູນ."

def RAG_CONFIDENCE_THRESHOLD : ℚ := 0.4

/-- get_rag_context. The chunk list and the loaded flag mirror
model_store.rag_chunks and rag_embeddings; a failing chunk lookup (an
index error inside the try block) lands in the caught-exception sentinel,
like every other exception during retrieval. -/
def get_rag_context (rag_chunks : List String) (embeddingsLoaded : Bool)
    (retrieval : Except Unit (List Hit)) : String :=
  if rag_chunks.isEmpty || !embeddingsLoaded then NO_KB_SENTINEL
  else
    match retrieval with
    | Except.error _ => RETRIEVAL_ERROR_SENTINEL
    | Except.ok hits =>
      match hits with
      | [] => NO_DATA_SENTINEL
      | h0 :: t =>
        if RAG_CONFIDENCE_THRESHOLD < h0.score then
          match (h0 :: t).mapM (fun h => rag_chunks.get? h.corpus_id) with
          | some texts => String.intercalate "\n" texts
          | none => RETRIEVAL_ERROR_SENTINEL
        else NO_DATA_SENTINEL

/-! ## The standalone app.py server: its handlers carry no price-inquiry
interception, its orchestrator runs the LLM under a timeout and persists
the turn at the end, best-effort. -/

namespace AppServer

/-- Outcome of the awaited LLM generation: a reply within the timeout, an
asyncio timeout, or any other exception. Out-of-memory inside
generate_llm_answer_sync is caught there and surfaces as an ok reply
carrying the apologetic sentinel, not as a failure here. -/
inductive LLMOutcome where
  | ok (text : String)
  | timeout
  | failure
deriving DecidableEq, Repr

/-- External collaborators of one app.py orchestrated turn. -/
structure AppEnv where
  today : Date
  normalize : String → String
  tokenize : String → String
  embSimilar : Bool
  ragContext : String → String
  llm : LLMOutcome

/-- Python string slicing by code points. -/
def takeStr (s : String) (n : Nat) : String := String.mk (s.toList.take n)

def handle_room_selection (w : World) (user_input session_id : String) :
    (String × String) × World :=
  match (splitWs user_input).find? (fun word => ROOM_NUMBERS.contains word) with
  | none =>
    (("ຂໍອະໄພ, ຂ້ອຍບໍ່ເຫັນໝາຍເລກຫ້ອງທີ່ຖືກຕ້ອງ. ກະລຸນາລອງໃໝ່.", "INVALID_ROOM"), w)
  | some selected_room =>
    match get_room_details_from_db w.rooms selected_room with
    | some details =>
      if details.status = "Available" then
        (("ເຂົ້າໃຈແລ້ວ, ທ່ານເລືອກຫ້ອງ " ++ selected_room ++
          ". ກະລຸນາລະບຸວັນທີເລີ່ມຈອງ ແລະ ວັນທີສິ້ນສຸດ (ຕົວຢ່າງ: 11/06/2025 - 13/06/2025 ຫຼື \x27ມື້ອື່ນ 2 ຄືນ\x27).",
          "DATE_REQUEST"),
         { w with convo :=
            set_state w.convo session_id "AWAITING_DATES" (some ⟨selected_room, none, none⟩) })
      else ((Backend.roomNotAvailableReply w selected_room, "STATUS_CHECK"), w)
    | none => ((Backend.roomNotAvailableReply w selected_room, "STATUS_CHECK"), w)

def handle_date_selection (today : Date) (w : World) (user_input session_id : String) :
    (String × String) × World :=
  match parse_dates today user_input, get_pending_booking w.convo session_id with
  | some dates, some pb =>
    let pb2 := { pb with start_date := some (fmtYMD dates.1),
                         end_date := some (fmtYMD dates.2) }
    let reply := "ທ່ານຕ້ອງການຈອງຫ້ອງ " ++ pb2.room ++ " ແຕ່ວັນທີ " ++ fmtYMD dates.1 ++
      " ຫາ " ++ fmtYMD dates.2 ++ ", ແມ່ນບໍ່? (ແມ່ນ/ບໍ່)"
    ((reply, "CONFIRMATION_REQUEST"),
     { w with convo :=
        set_state w.convo session_id "AWAITING_BOOKING_CONFIRMATION" (some pb2) })
  | _, _ =>
    (("ຂໍອະໄພ, ຂ້ອຍບໍ່ເຂົ້າໃຈຮູບແບບວັນທີ. ກະລຸນາໃຊ້ຮູບແບບ DD/MM/YYYY ຫຼື \x27ມື້ອື່ນ x ຄືນ\x27.",
      "INVALID_DATE"), w)

def handle_booking_confirmation (w : World) (user_input session_id : String) :
    (String × String) × World :=
  match get_pending_booking w.convo session_id with
  | none =>
    (("ເກີດຂໍ້ຜິດພາດ, ກະລຸນາເລີ່ມການຈອງໃໝ່.", "ERROR"),
     { w with convo := set_state w.convo session_id "NORMAL" none })
  | some pb =>
    if confirmationHit user_input then
      let booked := book_room_in_db w.rooms pb.room (pb.start_date.getD "")
        (pb.end_date.getD "") ("Booked via Chatbot session " ++ session_id)
      let w2 : World := ⟨(clear_session w.convo session_id).2, booked.2⟩
      if booked.1 then
        (("ສຳເລັດ! ຫ້ອງ " ++ pb.room ++ " ໄດ້ຖືກຈອງໃຫ້ທ່ານແລ້ວ. ຂອບໃຈທີ່ໃຊ້ບໍລິການ.",
          "BOOKING_CONFIRMED"), w2)
      else
        (("ຂໍອະໄພ, ເກີດຂໍ້ຜິດພາດໃນຂະນະທີ່ພະຍາຍາມຈອງ. ຫ້ອງນັ້ນອາດຈະຖືກຈອງໄປແລ້ວ. ກະລຸນາລອງໃໝ່.",
          "ERROR"), w2)
    else
      (("ການຈອງໄດ້ຖືກຍົກເລີກ. ຖ້າທ່ານຕ້ອງການເລີ່ມໃໝ່, ພຽງແຕ່ບອກຂ້ອຍ.",
        "BOOKING_CANCELLED"),
       { w with convo := (clear_session w.convo session_id).2 })

/-- The dispatch of app.py generate_orchestrated_answer, from the script
normalization down to the chosen reply and source; app.py duplicates
handle_booking_request verbatim, so the Backend definition is reused. -/
def dispatch (env : AppEnv) (w : World) (session_id user_query : String) :
    (String × String) × World :=
  let normalized_query := env.normalize user_query
  let st := get_state w.convo session_id
  if st = "AWAITING_ROOM_CHOICE" then
    handle_room_selection w normalized_query session_id
  else if st = "AWAITING_DATES" then
    handle_date_selection env.today w normalized_query session_id
  else if st = "AWAITING_BOOKING_CONFIRMATION" then
    handle_booking_confirmation w normalized_query session_id
  else if detect_booking_intent env.embSimilar (env.tokenize normalized_query) then
    Backend.handle_booking_request w session_id
  else
    let context := env.ragContext normalized_query
    match env.llm with
    | LLMOutcome.ok t => ((t, "RAG_FINETUNED_LLM"), w)
    | LLMOutcome.timeout =>
      (("ຈາກຂໍ້ມູນທີ່ຂ້ອຍມີ:\n" ++ takeStr context 500 ++ "...",
        "RAG_CONTEXT_ONLY_TIMEOUT"), w)
    | LLMOutcome.failure =>
      (("ຂໍອະໄພ, ເກີດຂໍ້ຜິດພາດໃນການປະມວນຜົນຄຳຕອບ.", "LLM_ERROR"), w)

structure AppWorld where
  world : World
  hist : List Backend.ChatRow
deriving DecidableEq, Repr

/-- app.py generate_orchestrated_answer: dispatch, then persist the two
chat-history rows inside one transaction whose failure is only logged
(histOk false: nothing is appended), then return the reply. -/
def generate_orchestrated_answer (env : AppEnv) (histOk : Bool) (aw : AppWorld)
    (user_query session_id : String) : (String × String) × AppWorld :=
  let r := dispatch env aw.world session_id user_query
  let hist2 :=
    if histOk then
      aw.hist ++ [⟨session_id, "user", user_query⟩, ⟨session_id, "bot", r.1.1⟩]
    else aw.hist
  (r.1, ⟨r.2, hist2⟩)

end AppServer

/-- The draft/state relationship the session store actually maintains: a
pending draft is present exactly in the two states that are entered with a
draft attached. -/
def DraftInv (cs : ConvoState) : Prop :=
  ∀ session_id : String,
    (lookupA cs.pending session_id).isSome = true ↔
      (get_state cs session_id = "AWAITING_DATES" ∨
       get_state cs session_id = "AWAITING_BOOKING_CONFIRMATION")

/-! ## Concrete instances used by the closed witness theorems. -/

def env0 : Backend.Env := ⟨⟨2025, 6, 1⟩, fun t => t, false, "RAG"⟩

def rooms0 : List Room := [⟨"101", "Available", none, none, none⟩]

def w0 : World := ⟨ConvoState.empty, rooms0⟩

def w1 : World := (Backend.orch_step env0 w0 "s" "book").2

def w2 : World := (Backend.orch_step env0 w1 "s" "101").2

def w3 : World := (Backend.orch_step env0 w2 "s" "11/06/2025 - 13/06/2025").2

def appEnv0 : AppServer.AppEnv :=
  ⟨⟨2025, 6, 1⟩, fun t => t, fun t => t, false, fun _ => "CTX",
   AppServer.LLMOutcome.timeout⟩

end HotelBot

namespace HotelBot

/-! # Theorems

## Date ordering -/

theorem eq_of_ltB_false {a b : Date} (h1 : Date.ltB a b = false)
    (h2 : Date.ltB b a = false) : a = b := by
  cases a
  cases b
  simp only [Date.ltB, decide_eq_false_iff_not] at h1 h2
  simp only [Date.mk.injEq]
  omega

theorem ltB_asymm {a b : Date} (h1 : Date.ltB a b = true)
    (h2 : Date.ltB b a = true) : False := by
  simp only [Date.ltB, decide_eq_true_eq] at h1 h2
  omega

theorem minP_eq_left {a b : Date} (h : Date.ltB b a = false) : Date.minP a b = a := by
  unfold Date.minP
  rw [h]
  simp

theorem minP_eq_right {a b : Date} (h : Date.ltB b a = true) : Date.minP a b = b := by
  unfold Date.minP
  rw [h]
  simp

theorem maxP_eq_left {a b : Date} (h : Date.ltB a b = false) : Date.maxP a b = a := by
  unfold Date.maxP
  rw [h]
  simp

theorem maxP_eq_right {a b : Date} (h : Date.ltB a b = true) : Date.maxP a b = b := by
  unfold Date.maxP
  rw [h]
  simp

theorem leB_self (a : Date) : Date.leB a a = true := by
  simp [Date.leB]

theorem leB_of_ltB {a b : Date} (h : Date.ltB a b = true) : Date.leB a b = true := by
  simp only [Date.ltB, decide_eq_true_eq] at h
  simp only [Date.leB, decide_eq_true_eq]
  omega

theorem minP_comm (a b : Date) : Date.minP a b = Date.minP b a := by
  cases hba : Date.ltB b a <;> cases hab : Date.ltB a b
  · rw [minP_eq_left hba, minP_eq_left hab]
    exact eq_of_ltB_false hab hba
  · rw [minP_eq_left hba, minP_eq_right hab]
  · rw [minP_eq_right hba, minP_eq_left hab]
  · exact (ltB_asymm hab hba).elim

theorem maxP_comm (a b : Date) : Date.maxP a b = Date.maxP b a := by
  cases hba : Date.ltB b a <;> cases hab : Date.ltB a b
  · rw [maxP_eq_left hab, maxP_eq_left hba]
    exact eq_of_ltB_false hab hba
  · rw [maxP_eq_right hab, maxP_eq_left hba]
  · rw [maxP_eq_left hab, maxP_eq_right hba]
  · exact (ltB_asymm hab hba).elim

theorem leB_minP_maxP (a b : Date) : Date.leB (Date.minP a b) (Date.maxP a b) = true := by
  cases hba : Date.ltB b a <;> cases hab : Date.ltB a b
  · rw [minP_eq_left hba, maxP_eq_left hab]
    exact leB_self a
  · rw [minP_eq_left hba, maxP_eq_right hab]
    exact leB_of_ltB hab
  · rw [minP_eq_right hba, maxP_eq_left hab]
    exact leB_of_ltB hba
  · exact (ltB_asymm hab hba).elim

/-! ## Claim C5 -/

/-- Claim C5: for every text on which the explicit-date pattern finds at
least two matches whose first two both parse as calendar dates, parse_dates
returns exactly that pair sorted earliest-first, and the returned pair does
not depend on the order of the two dates in the text. -/
theorem parse_dates_explicit_sorted (today : Date) (textS : String)
    (g1 g2 : DateGroups) (gs : List DateGroups) (d1 d2 : Date)
    (hfind : findDates textS.toList = g1 :: g2 :: gs)
    (h1 : strptimeDMY g1 = some d1) (h2 : strptimeDMY g2 = some d2) :
    parse_dates today textS = some (Date.minP d1 d2, Date.maxP d1 d2) ∧
    Date.leB (Date.minP d1 d2) (Date.maxP d1 d2) = true ∧
    (Date.minP d1 d2, Date.maxP d1 d2) = (Date.minP d2 d1, Date.maxP d2 d1) := by
  refine ⟨?_, leB_minP_maxP d1 d2, by rw [minP_comm, maxP_comm]⟩
  have hfind2 : findDates textS.data = g1 :: g2 :: gs := hfind
  simp [parse_dates, explicitPair, hfind2, h1, h2]

/-- Witness for C5, the instance named by the spec: the two dates appear
latest-first in the text and come back sorted. -/
theorem parse_dates_explicit_sorted_witness :
    parse_dates ⟨2025, 1, 1⟩ "13/06/2025 11/06/2025" =
      some (⟨2025, 6, 11⟩, ⟨2025, 6, 13⟩) := by
  have h := parse_dates_explicit_sorted ⟨2025, 1, 1⟩ "13/06/2025 11/06/2025"
    ("13".toList, "06".toList, "2025".toList) ("11".toList, "06".toList, "2025".toList)
    [] ⟨2025, 6, 13⟩ ⟨2025, 6, 11⟩ (by decide) (by decide) (by decide)
  exact h.1.trans (by decide)

/-! ## Claim C6 -/

/-- Claim C6: on a text the explicit branch rejects, a tomorrow marker
alone yields no date pair, and a tomorrow marker with a duration phrase of
n units yields (today plus one day, start plus n days). -/
theorem parse_dates_tomorrow_strict (today : Date) (textS : String)
    (hexp : explicitPair textS.toList = none)
    (hmark : hasTomorrowMarker textS.toList = true) :
    (findDuration textS.toList = none → parse_dates today textS = none) ∧
    (∀ n, findDuration textS.toList = some n →
      parse_dates today textS =
        some (Date.addDays today 1, Date.addDays (Date.addDays today 1) n)) := by
  have hexp2 : explicitPair textS.data = none := hexp
  have hmark2 : hasTomorrowMarker textS.data = true := hmark
  constructor
  · intro hdur
    have hdur2 : findDuration textS.data = none := hdur
    simp [parse_dates, hexp2, hmark2, hdur2]
  · intro n hdur
    have hdur2 : findDuration textS.data = some n := hdur
    simp [parse_dates, hexp2, hmark2, hdur2]

/-- Witness for C6, the two instances named by the spec. -/
theorem parse_dates_tomorrow_strict_witness :
    parse_dates ⟨2025, 6, 1⟩ "ມື້ອື່ນ" = none ∧
    parse_dates ⟨2025, 6, 1⟩ "ມື້ອື່ນ 2 ຄືນ" = some (⟨2025, 6, 2⟩, ⟨2025, 6, 4⟩) :=
  ⟨(parse_dates_tomorrow_strict ⟨2025, 6, 1⟩ "ມື້ອື່ນ" (by decide) (by decide)).1
      (by decide),
   ((parse_dates_tomorrow_strict ⟨2025, 6, 1⟩ "ມື້ອື່ນ 2 ຄືນ" (by decide) (by decide)).2
      2 (by decide)).trans (by decide)⟩

/-! ## Claim C1 -/

theorem filter_eq_nil_of_all {α : Type} (p : α → Bool) (l : List α)
    (h : ∀ a ∈ l, p a = false) : l.filter p = [] := by
  induction l with
  | nil => rfl
  | cons a t ih =>
    have ha := h a (List.mem_cons_self a t)
    simp only [List.filter_cons, ha, Bool.false_eq_true, if_false]
    exact ih (fun x hx => h x (List.mem_cons_of_mem a hx))

theorem map_eq_self_of_all {α : Type} (f : α → α) (l : List α)
    (h : ∀ a ∈ l, f a = a) : l.map f = l := by
  induction l with
  | nil => rfl
  | cons a t ih =>
    simp only [List.map_cons, h a (List.mem_cons_self a t), List.cons.injEq, true_and]
    exact ih (fun x hx => h x (List.mem_cons_of_mem a hx))

theorem bookingHit_iff (room_number : String) (r : Room) :
    bookingHit room_number r = true ↔
      (r.roomNumber = room_number ∧ r.status = "Available") := by
  simp [bookingHit]

/-- If no row of the table is an Available row of this room, the
conditional update reports zero affected rows and leaves the table as it
was. -/
theorem book_room_none_available {db : List Room} {room_number s e n : String}
    (h : ∀ r ∈ db, r.roomNumber = room_number → r.status ≠ "Available") :
    book_room_in_db db room_number s e n = (false, db) := by
  have hhit : ∀ r ∈ db, bookingHit room_number r = false := by
    intro r hr
    rcases Bool.eq_false_or_eq_true (bookingHit room_number r) with ht | hf
    · rcases (bookingHit_iff _ _).1 ht with ⟨h1, h2⟩
      exact absurd h2 (h r hr h1)
    · exact hf
  unfold book_room_in_db
  rw [filter_eq_nil_of_all _ _ hhit,
      map_eq_self_of_all _ _ (fun r hr => by rw [hhit r hr]; simp)]
  simp

/-- Claim C1: the conditional booking write succeeds, and installs the
Booked state with the given reservation fields, exactly when the room had
an Available row; with no Available row it reports failure and leaves the
table unchanged; hence of two successive booking attempts for the same
room at most the first succeeds and the room keeps exactly the first
attempt's reservation record. -/
theorem book_room_conditional (db : List Room) (room_number s1 e1 n1 s2 e2 n2 : String)
    (hnodup : (db.map Room.roomNumber).Nodup) :
    ((∀ r ∈ db, r.roomNumber = room_number → r.status ≠ "Available") →
        book_room_in_db db room_number s1 e1 n1 = (false, db)) ∧
    (∀ sd ed nt, Room.mk room_number "Available" sd ed nt ∈ db →
      (book_room_in_db db room_number s1 e1 n1).1 = true ∧
      Room.mk room_number "Booked" (some s1) (some e1) (some n1) ∈
        (book_room_in_db db room_number s1 e1 n1).2 ∧
      (∀ r ∈ (book_room_in_db db room_number s1 e1 n1).2,
        r.roomNumber = room_number →
          r = Room.mk room_number "Booked" (some s1) (some e1) (some n1)) ∧
      book_room_in_db (book_room_in_db db room_number s1 e1 n1).2 room_number s2 e2 n2 =
        (false, (book_room_in_db db room_number s1 e1 n1).2)) := by
  refine ⟨fun h => book_room_none_available h, ?_⟩
  intro sd ed nt hmem
  have hhit0 : bookingHit room_number (Room.mk room_number "Available" sd ed nt) = true := by
    simp [bookingHit]
  have hfilmem : Room.mk room_number "Available" sd ed nt ∈
      db.filter (bookingHit room_number) := List.mem_filter.2 ⟨hmem, hhit0⟩
  have huniq : ∀ r ∈ (book_room_in_db db room_number s1 e1 n1).2,
      r.roomNumber = room_number →
        r = Room.mk room_number "Booked" (some s1) (some e1) (some n1) := by
    intro r hr hroom
    obtain ⟨rsrc, hsrc, hfr⟩ := List.mem_map.1 hr
    have hnumsrc : rsrc.roomNumber = room_number := by
      cases hb : bookingHit room_number rsrc <;> rw [hb] at hfr <;>
        simp only [Bool.false_eq_true, if_false, if_true] at hfr <;>
        rw [← hfr] at hroom <;> exact hroom
    have hsame : rsrc = Room.mk room_number "Available" sd ed nt := by
      apply List.inj_on_of_nodup_map hnodup hsrc hmem
      rw [hnumsrc]
    rw [← hfr, hsame]
    simp [hhit0]
  refine ⟨?_, ?_, huniq, ?_⟩
  · have hlen : 0 < (db.filter (bookingHit room_number)).length :=
      List.length_pos.2 (fun hnil => by rw [hnil] at hfilmem; exact absurd hfilmem (List.not_mem_nil _))
    exact decide_eq_true hlen
  · refine List.mem_map.2 ⟨Room.mk room_number "Available" sd ed nt, hmem, ?_⟩
    simp [hhit0]
  · apply book_room_none_available
    intro r hr hroom
    rw [huniq r hr hroom]
    simp

/-- Witness for C1: a two-row table; the first booking of room 101
succeeds, the second reports failure and changes nothing. -/
theorem book_room_conditional_witness :
    (book_room_in_db rooms0 "101" "2025-06-11" "2025-06-13" "note1").1 = true ∧
    book_room_in_db (book_room_in_db rooms0 "101" "2025-06-11" "2025-06-13" "note1").2
        "101" "2025-07-01" "2025-07-02" "note2" =
      (false, (book_room_in_db rooms0 "101" "2025-06-11" "2025-06-13" "note1").2) := by
  have h := (book_room_conditional rooms0 "101" "2025-06-11" "2025-06-13" "note1"
    "2025-07-01" "2025-07-02" "note2" (by decide)).2 none none none (by decide)
  exact ⟨h.1, h.2.2.2⟩

/-! ## Session store lemmas -/

theorem lookupA_cons {α : Type} (k1 : String) (v : α) (t : List (String × α)) (k2 : String) :
    lookupA ((k1, v) :: t) k2 = if k2 = k1 then some v else lookupA t k2 := rfl

theorem eraseA_cons {α : Type} (k k1 : String) (v : α) (t : List (String × α)) :
    eraseA k ((k1, v) :: t) =
      if k1 = k then eraseA k t else (k1, v) :: eraseA k t := by
  by_cases h : k1 = k <;> simp [eraseA, List.filter_cons, h]

theorem lookupA_eraseA {α : Type} (k k2 : String) (l : List (String × α)) :
    lookupA (eraseA k l) k2 = if k2 = k then none else lookupA l k2 := by
  induction l with
  | nil => simp [eraseA, lookupA]
  | cons a t ih =>
    rcases a with ⟨a1, a2⟩
    rw [eraseA_cons]
    by_cases ha : a1 = k
    · rw [if_pos ha, ih, lookupA_cons]
      by_cases hk : k2 = k
      · simp [hk]
      · have : k2 ≠ a1 := fun hcon => hk (hcon.trans ha)
        simp [hk, this]
    · rw [if_neg ha, lookupA_cons, lookupA_cons, ih]
      by_cases hk : k2 = a1
      · have : k2 ≠ k := fun hcon => ha (hk.symm.trans hcon)
        simp [hk, this, ha]
      · simp [hk]

theorem get_state_set (cs : ConvoState) (sid st : String) (info : Option Booking)
    (s : String) :
    get_state (set_state cs sid st info) s = if s = sid then st else get_state cs s := by
  cases info <;> simp only [get_state, set_state, lookupA_cons] <;>
    by_cases h : s = sid <;> simp [h]

theorem pending_set_none (cs : ConvoState) (sid st s : String) :
    lookupA (set_state cs sid st none).pending s = lookupA cs.pending s := rfl

theorem pending_set_some (cs : ConvoState) (sid st s : String) (b : Booking) :
    lookupA (set_state cs sid st (some b)).pending s =
      if s = sid then some b else lookupA cs.pending s := rfl

theorem get_state_clear (cs : ConvoState) (sid s : String) :
    get_state (clear_session cs sid).2 s =
      if s = sid then "NORMAL" else get_state cs s := by
  unfold get_state clear_session
  rw [show (⟨eraseA sid cs.states, eraseA sid cs.pending⟩ : ConvoState).states
      = eraseA sid cs.states from rfl, lookupA_eraseA]
  by_cases h : s = sid <;> simp [h]

theorem pending_clear (cs : ConvoState) (sid s : String) :
    lookupA (clear_session cs sid).2.pending s =
      if s = sid then none else lookupA cs.pending s := by
  unfold clear_session
  exact lookupA_eraseA sid s cs.pending

/-! ## Preservation of the draft/state relationship -/

theorem draftInv_empty : DraftInv ConvoState.empty := by
  intro s
  constructor
  · intro h
    exact absurd h (by simp [ConvoState.empty, lookupA])
  · intro h
    rcases h with h | h
    · exact absurd h (show ¬("NORMAL" : String) = "AWAITING_DATES" by decide)
    · exact absurd h (show ¬("NORMAL" : String) = "AWAITING_BOOKING_CONFIRMATION" by decide)

theorem draftInv_set_nodraft {cs : ConvoState} (sid st : String) (h : DraftInv cs)
    (hst1 : st ≠ "AWAITING_DATES") (hst2 : st ≠ "AWAITING_BOOKING_CONFIRMATION")
    (hp : lookupA cs.pending sid = none) :
    DraftInv (set_state cs sid st none) := by
  intro s
  rw [pending_set_none, get_state_set]
  by_cases hs : s = sid
  · rw [if_pos hs, hs, hp]
    simp [hst1, hst2]
  · rw [if_neg hs]
    exact h s

theorem draftInv_set_draft {cs : ConvoState} (sid st : String) (b : Booking)
    (h : DraftInv cs)
    (hst : st = "AWAITING_DATES" ∨ st = "AWAITING_BOOKING_CONFIRMATION") :
    DraftInv (set_state cs sid st (some b)) := by
  intro s
  rw [pending_set_some, get_state_set]
  by_cases hs : s = sid
  · rw [if_pos hs, if_pos hs]
    simpa using hst
  · rw [if_neg hs, if_neg hs]
    exact h s

theorem draftInv_clear {cs : ConvoState} (sid : String) (h : DraftInv cs) :
    DraftInv (clear_session cs sid).2 := by
  intro s
  rw [pending_clear, get_state_clear]
  by_cases hs : s = sid
  · rw [if_pos hs, if_pos hs]
    simp only [Option.isSome_none, Bool.false_eq_true, false_iff]
    rintro (hc | hc) <;> exact absurd hc (by decide)
  · rw [if_neg hs, if_neg hs]
    exact h s

theorem draftInv_booking_request {w : World} (sid : String) (h : DraftInv w.convo)
    (hp : lookupA w.convo.pending sid = none) :
    DraftInv (Backend.handle_booking_request w sid).2.convo := by
  simp only [Backend.handle_booking_request]
  split
  · exact h
  · exact draftInv_set_nodraft sid _ h (by decide) (by decide) hp

theorem draftInv_room_selection {w : World} (ui sid : String) (h : DraftInv w.convo) :
    DraftInv (Backend.handle_room_selection w ui sid).2.convo := by
  simp only [Backend.handle_room_selection]
  split
  · exact h
  · split
    · exact h
    · split
      · split
        · exact draftInv_set_draft sid _ _ h (Or.inl rfl)
        · exact h
      · exact h

theorem draftInv_date_selection (today : Date) {w : World} (ui sid : String)
    (h : DraftInv w.convo) :
    DraftInv (Backend.handle_date_selection today w ui sid).2.convo := by
  simp only [Backend.handle_date_selection]
  split
  · exact h
  · split
    · exact draftInv_set_draft sid _ _ h (Or.inr rfl)
    · exact h

theorem draftInv_confirmation {w : World} (ui sid : String) (h : DraftInv w.convo) :
    DraftInv (Backend.handle_booking_confirmation w ui sid).2.convo := by
  simp only [Backend.handle_booking_confirmation]
  split
  · rename_i heq
    exact draftInv_set_nodraft sid _ h (by decide) (by decide) heq
  · split
    · exact h
    · split
      · split
        · exact draftInv_clear sid h
        · exact draftInv_clear sid h
      · exact draftInv_clear sid h

theorem draftInv_step (env : Backend.Env) {w : World} (sid ui : String)
    (h : DraftInv w.convo) : DraftInv (Backend.orch_step env w sid ui).2.convo := by
  by_cases h1 : get_state w.convo sid = "AWAITING_ROOM_CHOICE"
  · simp only [Backend.orch_step, h1, if_true]
    exact draftInv_room_selection ui sid h
  · by_cases h2 : get_state w.convo sid = "AWAITING_DATES"
    · simp only [Backend.orch_step, h1, h2, if_false, if_true]
      exact draftInv_date_selection env.today ui sid h
    · by_cases h3 : get_state w.convo sid = "AWAITING_BOOKING_CONFIRMATION"
      · simp only [Backend.orch_step, h1, h2, h3, if_false, if_true]
        exact draftInv_confirmation ui sid h
      · have hp : lookupA w.convo.pending sid = none := by
          rcases ho : lookupA w.convo.pending sid with _ | b
          · rfl
          · have hsome : (lookupA w.convo.pending sid).isSome = true := by
              rw [ho]; rfl
            rcases (h sid).1 hsome with hd | hc
            · exact absurd hd h2
            · exact absurd hc h3
        simp only [Backend.orch_step, h1, h2, h3, if_false]
        split
        · exact draftInv_booking_request sid h hp
        · exact h

theorem reachable_draftInv {w : World} (hw : Backend.Reachable w) : DraftInv w.convo := by
  induction hw with
  | init rooms => exact draftInv_empty
  | step env sid ui hw ih => exact draftInv_step env sid ui ih
  | clear sid hw ih => exact draftInv_clear sid ih

/-! ## Claim C2 -/

/-- Counterexample to claim C2 as stated: one orchestrated booking-intent
message on a fresh store reaches state AWAITING_ROOM_CHOICE with no
pending draft, so "draft iff state not NORMAL" fails on the code. -/
theorem draft_iff_not_normal_counterexample :
    Backend.Reachable w1 ∧
    get_state w1.convo "s" = "AWAITING_ROOM_CHOICE" ∧
    get_pending_booking w1.convo "s" = none :=
  ⟨Backend.Reachable.step env0 "s" "book" (Backend.Reachable.init rooms0),
   by decide, by decide⟩

/-- Claim C2 as amended: over every reachable world, a session holds a
pending draft exactly when its state is AWAITING_DATES or
AWAITING_BOOKING_CONFIRMATION; in particular AWAITING_ROOM_CHOICE carries
no draft. -/
theorem draft_iff_dates_or_confirm (w : World) (hw : Backend.Reachable w)
    (session_id : String) :
    (lookupA w.convo.pending session_id).isSome = true ↔
      (get_state w.convo session_id = "AWAITING_DATES" ∨
       get_state w.convo session_id = "AWAITING_BOOKING_CONFIRMATION") :=
  reachable_draftInv hw session_id

/-- Witness for the amended C2 at a concrete reachable world that sits in
the confirmation state. -/
theorem draft_iff_dates_or_confirm_witness :
    (lookupA w3.convo.pending "s").isSome = true :=
  (draft_iff_dates_or_confirm w3
    (Backend.Reachable.step env0 "s" "11/06/2025 - 13/06/2025"
      (Backend.Reachable.step env0 "s" "101"
        (Backend.Reachable.step env0 "s" "book" (Backend.Reachable.init rooms0))))
    "s").2 (Or.inr (by decide))

/-! ## Claim C4 -/

/-- Claim C4: in any reachable world whose session sits in one of the
three awaiting states, a message detected as a price inquiry produces
source FOCUS_ON_BOOKING and leaves the whole world (session state, draft
and room inventory) unchanged, whatever else the message contains. -/
theorem price_inquiry_redirect (w : World) (hw : Backend.Reachable w)
    (env : Backend.Env) (session_id user_input : String)
    (hst : get_state w.convo session_id = "AWAITING_ROOM_CHOICE" ∨
           get_state w.convo session_id = "AWAITING_DATES" ∨
           get_state w.convo session_id = "AWAITING_BOOKING_CONFIRMATION")
    (hprice : detect_price_inquiry user_input = true) :
    (Backend.orch_step env w session_id user_input).1.2 = "FOCUS_ON_BOOKING" ∧
    (Backend.orch_step env w session_id user_input).2 = w := by
  rcases hst with h1 | h2 | h3
  · simp only [Backend.orch_step, h1, if_true]
    constructor <;> simp [Backend.handle_room_selection, hprice]
  · have hn1 : ¬get_state w.convo session_id = "AWAITING_ROOM_CHOICE" := by
      rw [h2]; decide
    simp only [Backend.orch_step, if_neg hn1, h2, if_true]
    constructor <;> simp [Backend.handle_date_selection, hprice]
  · have hn1 : ¬get_state w.convo session_id = "AWAITING_ROOM_CHOICE" := by
      rw [h3]; decide
    have hn2 : ¬get_state w.convo session_id = "AWAITING_DATES" := by
      rw [h3]; decide
    have hsome := (reachable_draftInv hw session_id).2 (Or.inr h3)
    obtain ⟨pb, hpb⟩ := Option.isSome_iff_exists.1 hsome
    simp only [Backend.orch_step, if_neg hn1, if_neg hn2, h3, if_true]
    constructor <;>
      simp [Backend.handle_booking_confirmation, get_pending_booking, hpb, hprice]

/-- Witness for C4, the instance named by the spec: a price inquiry while
awaiting dates. -/
theorem price_inquiry_redirect_witness :
    (Backend.orch_step env0 w2 "s" "price").1.2 = "FOCUS_ON_BOOKING" ∧
    (Backend.orch_step env0 w2 "s" "price").2 = w2 :=
  price_inquiry_redirect w2
    (Backend.Reachable.step env0 "s" "101"
      (Backend.Reachable.step env0 "s" "book" (Backend.Reachable.init rooms0)))
    env0 "s" "price" (Or.inr (Or.inl (by decide))) (by decide)

/-! ## Claim C3 -/

/-- Claim C3: in the confirmation state with a draft present, a message
that is neither a price inquiry nor contains a confirmation keyword
cancels the booking: the reply source is BOOKING_CANCELLED, the session is
cleared back to NORMAL with no draft, and the room inventory is untouched. -/
theorem confirmation_cancel (env : Backend.Env) (w : World)
    (session_id user_input : String) (pb : Booking)
    (hst : get_state w.convo session_id = "AWAITING_BOOKING_CONFIRMATION")
    (hpb : get_pending_booking w.convo session_id = some pb)
    (hprice : detect_price_inquiry user_input = false)
    (hconf : confirmationHit user_input = false) :
    Backend.orch_step env w session_id user_input =
      (("ການຈອງໄດ້ຖືກຍົກເລີກ. ຖ້າທ່ານຕ້ອງການເລີ່ມໃໝ່, ພຽງແຕ່ບອກຂ້ອຍ.", "BOOKING_CANCELLED"),
       ⟨(clear_session w.convo session_id).2, w.rooms⟩) ∧
    get_state (Backend.orch_step env w session_id user_input).2.convo session_id =
      "NORMAL" ∧
    get_pending_booking (Backend.orch_step env w session_id user_input).2.convo
      session_id = none ∧
    (Backend.orch_step env w session_id user_input).2.rooms = w.rooms := by
  have hn1 : ¬get_state w.convo session_id = "AWAITING_ROOM_CHOICE" := by
    rw [hst]; decide
  have hn2 : ¬get_state w.convo session_id = "AWAITING_DATES" := by
    rw [hst]; decide
  have hmain : Backend.orch_step env w session_id user_input =
      (("ການຈອງໄດ້ຖືກຍົກເລີກ. ຖ້າທ່ານຕ້ອງການເລີ່ມໃໝ່, ພຽງແຕ່ບອກຂ້ອຍ.", "BOOKING_CANCELLED"),
       ⟨(clear_session w.convo session_id).2, w.rooms⟩) := by
    have hpb2 : lookupA w.convo.pending session_id = some pb := hpb
    simp only [Backend.orch_step, if_neg hn1, if_neg hn2, if_pos hst]
    simp only [Backend.handle_booking_confirmation, get_pending_booking]
    rw [hpb2]
    simp only [hprice, Bool.false_eq_true, if_false, hconf]
  refine ⟨hmain, ?_, ?_, ?_⟩ <;> rw [hmain]
  · rw [show ((("ການຈອງໄດ້ຖືກຍົກເລີກ. ຖ້າທ່ານຕ້ອງການເລີ່ມໃໝ່, ພຽງແຕ່ບອກຂ້ອຍ.",
        "BOOKING_CANCELLED"),
        (⟨(clear_session w.convo session_id).2, w.rooms⟩ : World)).2.convo)
      = (clear_session w.convo session_id).2 from rfl, get_state_clear]
    simp
  · rw [show ((("ການຈອງໄດ້ຖືກຍົກເລີກ. ຖ້າທ່ານຕ້ອງການເລີ່ມໃໝ່, ພຽງແຕ່ບອກຂ້ອຍ.",
        "BOOKING_CANCELLED"),
        (⟨(clear_session w.convo session_id).2, w.rooms⟩ : World)).2.convo)
      = (clear_session w.convo session_id).2 from rfl]
    unfold get_pending_booking
    rw [pending_clear]
    simp

/-- Witness for C3: a plain refusal in the confirmation state cancels and
leaves the room Available. -/
theorem confirmation_cancel_witness :
    (Backend.orch_step env0 w3 "s" "ບໍ່").1.2 = "BOOKING_CANCELLED" ∧
    get_state (Backend.orch_step env0 w3 "s" "ບໍ່").2.convo "s" = "NORMAL" ∧
    (Backend.orch_step env0 w3 "s" "ບໍ່").2.rooms = rooms0 := by
  have h := confirmation_cancel env0 w3 "s" "ບໍ່"
    ⟨"101", some "2025-06-11", some "2025-06-13"⟩
    (by decide) (by decide) (by decide) (by decide)
  exact ⟨by rw [h.1], h.2.1, h.2.2.2⟩

/-! ## Claim C10 -/

/-- Claim C10: the confirmation decision is bare substring containment of
a configured keyword in the lower-cased input; since the single letter y
is a keyword and the Lao negation contains the Lao yes as a substring, any
such input takes the commit branch — the room booking is attempted and the
outcome is BOOKING_CONFIRMED or ERROR, never the cancellation path. -/
theorem confirm_substring_commit (w : World) (session_id user_input : String)
    (pb : Booking)
    (hpb : get_pending_booking w.convo session_id = some pb)
    (hprice : detect_price_inquiry user_input = false)
    (hy : containsStr (lowerStr user_input) "y" = true ∨
          containsStr (lowerStr user_input) "ແມ່ນ" = true) :
    Backend.handle_booking_confirmation w user_input session_id =
      (let booked := book_room_in_db w.rooms pb.room (pb.start_date.getD "")
         (pb.end_date.getD "") ("Booked via Chatbot session " ++ session_id)
       if booked.1 then
         (("ສຳເລັດ! ຫ້ອງ " ++ pb.room ++ " ໄດ້ຖືກຈອງໃຫ່ທ່ານແລ້ວ. ຂອບໃຈທີ່ໃຊ້ບໍລິການ.",
           "BOOKING_CONFIRMED"),
          ⟨(clear_session w.convo session_id).2, booked.2⟩)
       else
         (("ຂໍອະໄພ, ເກີດຂໍ້ຜິດພາດໃນຂະນະທີ່ພະຍາຍາມຈອງ. ຫ້ອງນັ້ນອາດຈະຖືກຈອງໄປແລ້ວ. ກະລຸນາລອງໃໝ່.",
           "ERROR"),
          ⟨(clear_session w.convo session_id).2, booked.2⟩)) ∧
    (Backend.handle_booking_confirmation w user_input session_id).1.2 ≠
      "BOOKING_CANCELLED" := by
  have hhit : confirmationHit user_input = true := by
    unfold confirmationHit
    rcases hy with hy | hy
    · exact List.any_eq_true.2 ⟨"y", by decide, hy⟩
    · exact List.any_eq_true.2 ⟨"ແມ່ນ", by decide, hy⟩
  have hmain : Backend.handle_booking_confirmation w user_input session_id =
      (let booked := book_room_in_db w.rooms pb.room (pb.start_date.getD "")
         (pb.end_date.getD "") ("Booked via Chatbot session " ++ session_id)
       if booked.1 then
         (("ສຳເລັດ! ຫ້ອງ " ++ pb.room ++ " ໄດ້ຖືກຈອງໃຫ່ທ່ານແລ້ວ. ຂອບໃຈທີ່ໃຊ້ບໍລິການ.",
           "BOOKING_CONFIRMED"),
          ⟨(clear_session w.convo session_id).2, booked.2⟩)
       else
         (("ຂໍອະໄພ, ເກີດຂໍ້ຜິດພາດໃນຂະນະທີ່ພະຍາຍາມຈອງ. ຫ້ອງນັ້ນອາດຈະຖືກຈອງໄປແລ້ວ. ກະລຸນາລອງໃໝ່.",
           "ERROR"),
          ⟨(clear_session w.convo session_id).2, booked.2⟩)) := by
    simp only [Backend.handle_booking_confirmation, get_pending_booking] at *
    rw [hpb]
    simp only [hprice, Bool.false_eq_true, if_false, hhit, if_true]
  refine ⟨hmain, ?_⟩
  rw [hmain]
  cases hb : (book_room_in_db w.rooms pb.room (pb.start_date.getD "")
      (pb.end_date.getD "") ("Booked via Chatbot session " ++ session_id)).1 <;>
    simp [hb]

/-- Witness for C10: the negation answer takes the commit branch and books
the room. -/
theorem confirm_substring_commit_witness :
    (Backend.handle_booking_confirmation w3 "ບໍ່ແມ່ນ" "s").1.2 = "BOOKING_CONFIRMED" := by
  have h := confirm_substring_commit w3 "s" "ບໍ່ແມ່ນ"
    ⟨"101", some "2025-06-11", some "2025-06-13"⟩
    (by decide) (by decide) (Or.inr (by decide))
  rw [h.1]
  decide

/-! ## Claim C7 -/

/-- Claim C7: retrieval never escapes as an exception — every outcome maps
to a reply string. With a knowledge base loaded: a best hit that does not
exceed the 0.4 threshold yields exactly the no-specific-data sentinel and
no chunk text, a best hit above it yields the top-K chunk texts
newline-joined, and a raised exception yields the retrieval-error
sentinel. -/
theorem get_rag_context_gating (rag_chunks : List String) (embeddingsLoaded : Bool)
    (retrieval : Except Unit (List Hit))
    (hkb : rag_chunks ≠ [] ∧ embeddingsLoaded = true) :
    (∀ h0 t, retrieval = Except.ok (h0 :: t) →
      ¬(RAG_CONFIDENCE_THRESHOLD < h0.score) →
      get_rag_context rag_chunks embeddingsLoaded retrieval = NO_DATA_SENTINEL) ∧
    (∀ h0 t texts, retrieval = Except.ok (h0 :: t) →
      RAG_CONFIDENCE_THRESHOLD < h0.score →
      (h0 :: t).mapM (fun h => rag_chunks.get? h.corpus_id) = some texts →
      get_rag_context rag_chunks embeddingsLoaded retrieval =
        String.intercalate "\n" texts) ∧
    (∀ e, retrieval = Except.error e →
      get_rag_context rag_chunks embeddingsLoaded retrieval =
        RETRIEVAL_ERROR_SENTINEL) := by
  have hne : (rag_chunks.isEmpty || !embeddingsLoaded) = false := by
    rcases hkb with ⟨h1, h2⟩
    rw [h2]
    cases rag_chunks with
    | nil => exact absurd rfl h1
    | cons a t => rfl
  refine ⟨?_, ?_, ?_⟩
  · intro h0 t hr hsc
    simp only [get_rag_context, hne, Bool.false_eq_true, if_false, hr]
    rw [if_neg hsc]
  · intro h0 t texts hr hsc hmap
    simp only [get_rag_context, hne, Bool.false_eq_true, if_false, hr]
    rw [if_pos hsc, hmap]
  · intro e hr
    simp only [get_rag_context, hne, Bool.false_eq_true, if_false, hr]

/-- Witness for C7: an above-threshold best hit joins the two chunk texts,
an exactly-at-threshold best hit returns the no-specific-data sentinel,
and an exception returns the error sentinel. -/
theorem get_rag_context_gating_witness :
    get_rag_context ["a", "b"] true (Except.ok [⟨0, 1/2⟩, ⟨1, 9/20⟩]) = "a\nb" ∧
    get_rag_context ["a", "b"] true (Except.ok [⟨0, 2/5⟩, ⟨1, 1/5⟩]) =
      NO_DATA_SENTINEL ∧
    get_rag_context ["a", "b"] true (Except.error ()) = RETRIEVAL_ERROR_SENTINEL := by
  refine ⟨?_, ?_, ?_⟩
  · have h := (get_rag_context_gating ["a", "b"] true
        (Except.ok [⟨0, 1/2⟩, ⟨1, 9/20⟩]) ⟨by decide, rfl⟩).2.1
      ⟨0, 1/2⟩ [⟨1, 9/20⟩] ["a", "b"] rfl
      (by norm_num [RAG_CONFIDENCE_THRESHOLD]) (by decide)
    exact h.trans (by decide)
  · exact (get_rag_context_gating ["a", "b"] true
        (Except.ok [⟨0, 2/5⟩, ⟨1, 1/5⟩]) ⟨by decide, rfl⟩).1
      ⟨0, 2/5⟩ [⟨1, 1/5⟩] rfl
      (by norm_num [RAG_CONFIDENCE_THRESHOLD])
  · exact (get_rag_context_gating ["a", "b"] true
        (Except.error ()) ⟨by decide, rfl⟩).2.2 () rfl

/-! ## Claim C8 -/

/-- Claim C8: when the session is in none of the awaiting states, no
booking intent is detected and the generation call times out, the app.py
orchestrated reply is exactly the fixed prefix plus the first 500
characters of the retrieved context plus an ellipsis — never partial LLM
output — tagged RAG_CONTEXT_ONLY_TIMEOUT. -/
theorem app_timeout_context_only (env : AppServer.AppEnv) (histOk : Bool)
    (aw : AppServer.AppWorld) (user_query session_id : String)
    (h1 : ¬get_state aw.world.convo session_id = "AWAITING_ROOM_CHOICE")
    (h2 : ¬get_state aw.world.convo session_id = "AWAITING_DATES")
    (h3 : ¬get_state aw.world.convo session_id = "AWAITING_BOOKING_CONFIRMATION")
    (hint : detect_booking_intent env.embSimilar
      (env.tokenize (env.normalize user_query)) = false)
    (ht : env.llm = AppServer.LLMOutcome.timeout) :
    (AppServer.generate_orchestrated_answer env histOk aw user_query session_id).1 =
      ("ຈາກຂໍ້ມູນທີ່ຂ້ອຍມີ:\n" ++
         AppServer.takeStr (env.ragContext (env.normalize user_query)) 500 ++ "...",
       "RAG_CONTEXT_ONLY_TIMEOUT") := by
  simp only [AppServer.generate_orchestrated_answer, AppServer.dispatch,
    if_neg h1, if_neg h2, if_neg h3, hint, Bool.false_eq_true, if_false, ht]

/-- Witness for C8 at a concrete environment whose generation times out. -/
theorem app_timeout_context_only_witness :
    (AppServer.generate_orchestrated_answer appEnv0 true ⟨w0, []⟩ "hello" "s").1 =
      ("ຈາກຂໍ້ມູນທີ່ຂ້ອຍມີ:\nCTX...", "RAG_CONTEXT_ONLY_TIMEOUT") := by
  have h := app_timeout_context_only appEnv0 true ⟨w0, []⟩ "hello" "s"
    (by decide) (by decide) (by decide) (by decide) rfl
  exact h.trans (by decide)

/-! ## Claim C9 -/

/-- Counterexample to C9 as stated: in the backend orchestrator of
services/chatbot.py a chat-history write failure is not merely logged.
With every insert failing, the exception escapes and no reply is returned
at all; with only the first insert failing, the reply and source are
replaced by the generic error pair, unlike the same turn with a healthy
store. -/
theorem chat_history_failure_counterexample :
    Backend.generate_orchestrated_answer env0 (fun _ => false) ⟨w0, []⟩ "hi" "s" =
      Except.error () ∧
    Backend.generate_orchestrated_answer env0 (fun k => k != 0) ⟨w0, []⟩ "hi" "s" =
      Except.ok ((Backend.chatbotErrorReply, "ERROR"),
        ⟨w0, [⟨"s", "assistant", Backend.chatbotErrorReply⟩]⟩) ∧
    Backend.generate_orchestrated_answer env0 (fun _ => true) ⟨w0, []⟩ "hi" "s" =
      Except.ok ((env0.ragReply, "LLM_WITH_RAG"),
        ⟨w0, [⟨"s", "user", "hi"⟩, ⟨"s", "assistant", env0.ragReply⟩]⟩) :=
  ⟨rfl, rfl, rfl⟩

/-- Claim C9 amended, on the app.py orchestrator: per turn exactly the two
rows (inbound user text first, then the produced reply) are appended when
the write succeeds, and a write failure appends nothing while leaving the
reply, the source and the rest of the world identical and still returned. -/
theorem app_history_two_rows_best_effort (env : AppServer.AppEnv)
    (aw : AppServer.AppWorld) (user_query session_id : String) :
    (AppServer.generate_orchestrated_answer env true aw user_query session_id).1 =
      (AppServer.generate_orchestrated_answer env false aw user_query session_id).1 ∧
    (AppServer.generate_orchestrated_answer env true aw user_query session_id).2.world =
      (AppServer.generate_orchestrated_answer env false aw user_query session_id).2.world ∧
    (AppServer.generate_orchestrated_answer env true aw user_query session_id).2.hist =
      aw.hist ++ [⟨session_id, "user", user_query⟩,
        ⟨session_id, "bot",
          (AppServer.generate_orchestrated_answer env true aw user_query session_id).1.1⟩] ∧
    (AppServer.generate_orchestrated_answer env false aw user_query session_id).2.hist =
      aw.hist :=
  ⟨rfl, rfl, rfl, rfl⟩

end HotelBot
